import Mathlib

/-!
Shallow embedding of the availability/booking engine of
`src/hospital_management/app.py` (a Flask + sqlite application).

Dates are modelled as opaque natural-number codes (the source stores ISO
strings and only ever compares them for equality).  Times of day are stored
as minutes after midnight (the source stores zero-padded `HH:MM` strings,
whose equality agrees with equality of minutes); the validation layer keeps
the hour/minute structure because the alignment check of the source looks at
the minute component of the string.

The two uniqueness indexes created by `init_db`
(`appointments(doctor_id, date, time)` and
`doctor_availability(doctor_id, date, start_time, end_time)`) are modelled
explicitly: an INSERT or UPDATE that would collide raises
`sqlite3.IntegrityError`, which the route handlers either swallow
(`doctor_availability`, the `pass` branch) or catch-and-roll-back
(`patient_book_slot`, `patient_request_reschedule`).
-/

namespace Hospital

/-- Appointment lifecycle status: the CHECK constraint of the
`appointments` table admits exactly these three values. -/
inductive Status where
  | Booked
  | Completed
  | Cancelled
deriving DecidableEq

/-- Row of the `appointments` table (the columns the booking engine reads). -/
structure Appointment where
  id : Nat
  patient_id : Nat
  doctor_id : Nat
  date : Nat
  time : Nat
  end_time : Nat
  status : Status
deriving DecidableEq

/-- Row of the `doctor_availability` table.  `is_booked` is the 0/1 flag of
the source; `booked_by` is NULL (`none`) or a patient id. -/
structure Slot where
  id : Nat
  doctor_id : Nat
  date : Nat
  start_time : Nat
  end_time : Nat
  is_booked : Bool
  booked_by : Option Nat
deriving DecidableEq

/-- The mutable state the booking engine touches: the `appointments` and
`doctor_availability` tables. -/
structure DB where
  appointments : List Appointment
  slots : List Slot
deriving DecidableEq

/-- SELECT ... FROM appointments WHERE id = ? (first match). -/
def findAppt (db : DB) (appointmentId : Nat) : Option Appointment :=
  db.appointments.find? (fun a => decide (a.id = appointmentId))

/-- SELECT ... FROM doctor_availability WHERE id = ? (first match). -/
def findSlot (db : DB) (slotId : Nat) : Option Slot :=
  db.slots.find? (fun s => decide (s.id = slotId))

/-- WHERE clause `doctor_id = ? AND date = ? AND start_time = ?` used by the
slot-release UPDATEs of the cancel and reschedule handlers. -/
def slotTripleMatch (s : Slot) (docId dt tm : Nat) : Bool :=
  decide (s.doctor_id = docId) && decide (s.date = dt) && decide (s.start_time = tm)

/-- The `AUTOINCREMENT` primary key for a new appointment row. -/
def nextApptId (db : DB) : Nat :=
  (db.appointments.map (fun a => a.id)).foldr Nat.max 0 + 1

/-- The idempotent-booking guard of `patient_book_slot`:
`SELECT 1 FROM appointments WHERE patient_id=? AND doctor_id=? AND date=?
AND time=? AND status='Booked'`. -/
def duplicate_booking_exists (l : List Appointment) (patientId docId dt tm : Nat) : Bool :=
  l.any (fun a => decide (a.patient_id = patientId) && decide (a.doctor_id = docId) &&
    decide (a.date = dt) && decide (a.time = tm) && decide (a.status = Status.Booked))

/-- The unique index `idx_appointments_unique ON appointments(doctor_id, date,
time)` created by `init_db`: an INSERT collides when any existing row (of any
patient and any status, Cancelled included) has the same key. -/
def apptKeyClash (l : List Appointment) (docId dt tm : Nat) : Bool :=
  l.any (fun a => decide (a.doctor_id = docId) && decide (a.date = dt) && decide (a.time = tm))

/-- Outcomes of `patient_book_slot` (POST branch). `bookingFailed` is the
generic `except Exception` handler (flash "Booking failed: ..."), reached when
the appointment INSERT violates `idx_appointments_unique`; the transaction is
rolled back. -/
inductive BookResult where
  | slotUnavailable
  | duplicateBooking
  | bookingFailed
  | ok (apptId : Nat)
deriving DecidableEq

/-- POST branch of `patient_book_slot`: re-read the slot inside the
transaction; reject if missing or already booked; reject a duplicate Booked
appointment of the same patient at the same doctor/date/time; otherwise
insert the appointment and mark the slot booked, committing both. -/
def patient_book_slot (db : DB) (patientId slotId : Nat) : BookResult × DB :=
  match findSlot db slotId with
  | none => (BookResult.slotUnavailable, db)
  | some fresh =>
    if fresh.is_booked then (BookResult.slotUnavailable, db)
    else if duplicate_booking_exists db.appointments patientId fresh.doctor_id fresh.date
        fresh.start_time then
      (BookResult.duplicateBooking, db)
    else if apptKeyClash db.appointments fresh.doctor_id fresh.date fresh.start_time then
      (BookResult.bookingFailed, db)
    else
      (BookResult.ok (nextApptId db),
        { appointments := db.appointments ++
            [{ id := nextApptId db, patient_id := patientId, doctor_id := fresh.doctor_id,
               date := fresh.date, time := fresh.start_time, end_time := fresh.end_time,
               status := Status.Booked }],
          slots := db.slots.map (fun s =>
            if s.id = slotId then { s with is_booked := true, booked_by := some patientId }
            else s) })

/-- Outcomes of the cancel handlers. -/
inductive CancelResult where
  | apptNotFound
  | notCancellable
  | ok
deriving DecidableEq

/-- `patient_cancel_appointment`: reject unless the appointment exists and is
Booked; then set its status to Cancelled and free every availability row
matching `doctor_id = ? AND date = ? AND start_time = ?` — note the release
UPDATE of this handler carries no `booked_by` condition. -/
def patient_cancel_appointment (db : DB) (appointmentId : Nat) : CancelResult × DB :=
  match findAppt db appointmentId with
  | none => (CancelResult.apptNotFound, db)
  | some appt =>
    if appt.status ≠ Status.Booked then (CancelResult.notCancellable, db)
    else
      (CancelResult.ok,
        { appointments := db.appointments.map (fun x =>
            if x.id = appointmentId then { x with status := Status.Cancelled } else x),
          slots := db.slots.map (fun s =>
            if slotTripleMatch s appt.doctor_id appt.date appt.time then
              { s with is_booked := false, booked_by := none }
            else s) })

/-- `admin_cancel_appointment`: same status guard, status update and
unconditional (no `booked_by`) slot release as the patient handler. -/
def admin_cancel_appointment (db : DB) (appointmentId : Nat) : CancelResult × DB :=
  match findAppt db appointmentId with
  | none => (CancelResult.apptNotFound, db)
  | some appt =>
    if appt.status ≠ Status.Booked then (CancelResult.notCancellable, db)
    else
      (CancelResult.ok,
        { appointments := db.appointments.map (fun x =>
            if x.id = appointmentId then { x with status := Status.Cancelled } else x),
          slots := db.slots.map (fun s =>
            if slotTripleMatch s appt.doctor_id appt.date appt.time then
              { s with is_booked := false, booked_by := none }
            else s) })

/-- The `/patient/appointments/<id>/cancel` route as seen by a logged-in
patient: the handler receives the session's patient identity (enforced by
`login_required(role="patient")`) but its body never reads it — it queries
the appointment by id only and performs no ownership comparison. -/
def patient_cancel_endpoint (sessionPatientId : Nat) (db : DB) (appointmentId : Nat) :
    CancelResult × DB :=
  patient_cancel_appointment db appointmentId

/-- Outcomes of `patient_request_reschedule` (POST branch).
`rescheduleFailed` is the `except Exception` handler (flash "Failed to
reschedule appointment: ..."), reached when the appointment UPDATE violates
`idx_appointments_unique`; the transaction is rolled back. -/
inductive RescheduleResult where
  | apptNotFound
  | slotGone
  | slotUnavailable
  | providerMismatch
  | rescheduleFailed
  | ok
deriving DecidableEq

/-- First slot UPDATE of the reschedule handler: free any availability row
matching the appointment's old `(doctor_id, date, time)` that is
`booked_by` the requesting patient. -/
def freeOldSlot (patientId docId dt tm : Nat) (s : Slot) : Slot :=
  if slotTripleMatch s docId dt tm && decide (s.booked_by = some patientId) then
    { s with is_booked := false, booked_by := none }
  else s

/-- Second slot UPDATE of the reschedule handler: book the requested row by id. -/
def bookNewSlot (patientId requestedSlotId : Nat) (s : Slot) : Slot :=
  if s.id = requestedSlotId then { s with is_booked := true, booked_by := some patientId }
  else s

/-- Collision test for the appointment UPDATE `SET date=?, time=?, ...` of the
reschedule handler against `idx_appointments_unique`: some other row already
occupies the target `(doctor_id, date, time)` key. -/
def reschedule_key_clash (l : List Appointment) (appointmentId docId dt tm : Nat) : Bool :=
  l.any (fun x => decide (x.id ≠ appointmentId) && decide (x.doctor_id = docId) &&
    decide (x.date = dt) && decide (x.time = tm))

/-- POST branch of `patient_request_reschedule`: ownership is checked
(`appt["patient_id"] != patient["id"]` renders "Appointment not found") but
the appointment's status is not; the requested slot must exist, be unbooked
and belong to the same doctor; then the old slot is freed (holder-matched),
the appointment is moved to the new slot's date/time with status set to
Booked, and the new slot is booked for the patient. -/
def patient_request_reschedule (db : DB) (patientId appointmentId requestedSlotId : Nat) :
    RescheduleResult × DB :=
  match findAppt db appointmentId with
  | none => (RescheduleResult.apptNotFound, db)
  | some appt =>
    if appt.patient_id ≠ patientId then (RescheduleResult.apptNotFound, db)
    else
      match findSlot db requestedSlotId with
      | none => (RescheduleResult.slotGone, db)
      | some fresh =>
        if fresh.is_booked then (RescheduleResult.slotUnavailable, db)
        else if fresh.doctor_id ≠ appt.doctor_id then (RescheduleResult.providerMismatch, db)
        else if reschedule_key_clash db.appointments appointmentId appt.doctor_id fresh.date
            fresh.start_time then
          (RescheduleResult.rescheduleFailed, db)
        else
          (RescheduleResult.ok,
            { appointments := db.appointments.map (fun x =>
                if x.id = appointmentId then
                  { x with date := fresh.date, time := fresh.start_time,
                           end_time := fresh.end_time, status := Status.Booked }
                else x),
              slots := (db.slots.map
                  (freeOldSlot patientId appt.doctor_id appt.date appt.time)).map
                (bookNewSlot patientId requestedSlotId) })

/-- A clock time as the source's `HH:MM` strings carry it. -/
structure HMTime where
  hour : Nat
  minute : Nat
deriving DecidableEq

/-- `time_to_minutes` of the source. -/
def time_to_minutes (t : HMTime) : Nat := t.hour * 60 + t.minute

/-- `is_within_bounds` of the source: 09:00 <= t <= 21:00, both inclusive. -/
def is_within_bounds (t : HMTime) : Bool :=
  decide (time_to_minutes { hour := 9, minute := 0 } ≤ time_to_minutes t) &&
  decide (time_to_minutes t ≤ time_to_minutes { hour := 21, minute := 0 })

/-- `is_5min_multiple` of the source: the minute component is a multiple of 5. -/
def is_5min_multiple (t : HMTime) : Bool :=
  decide (t.minute % 5 = 0)

/-- The slot-generation while-loop of `doctor_availability`, with an explicit
fuel argument so the recursion is structural.  `genSlots` below passes
`endMin + 1 - cursor` fuel, which is enough for any slot length >= 1 minute
(the validation layer guarantees a positive multiple of 5), so the fuel never
runs out on the paths the handler executes. -/
def genSlotsAux (len : Nat) : Nat → Nat → Nat → List (Nat × Nat)
  | 0, _, _ => []
  | fuel + 1, cursor, endMin =>
    if cursor + len ≤ endMin then
      (cursor, cursor + len) :: genSlotsAux len fuel (cursor + len) endMin
    else []

/-- Slots of `len` minutes generated back-to-back from `cursor` while
`cursor + len <= endMin` (the loop of `doctor_availability`). -/
def genSlots (cursor endMin len : Nat) : List (Nat × Nat) :=
  genSlotsAux len (endMin + 1 - cursor) cursor endMin

/-- Natural-key comparison against the unique index
`idx_doctor_availability_unique ON doctor_availability(doctor_id, date,
start_time, end_time)`. -/
def slotKeyMatch (s : Slot) (docId dt st et : Nat) : Bool :=
  decide (s.doctor_id = docId) && decide (s.date = dt) &&
  decide (s.start_time = st) && decide (s.end_time = et)

/-- The insert loop of `doctor_availability`: each generated slot is
INSERTed unless its natural key collides with an existing row, in which case
the `sqlite3.IntegrityError` is swallowed (`pass`) and the slot skipped. -/
def insertGenerated (docId iso : Nat) : List (Nat × Nat) → List Slot → Nat → List Slot × Nat
  | [], acc, nextId => (acc, nextId)
  | (s, e) :: rest, acc, nextId =>
    if acc.any (fun r => slotKeyMatch r docId iso s e) then
      insertGenerated docId iso rest acc nextId
    else
      insertGenerated docId iso rest
        (acc ++ [{ id := nextId, doctor_id := docId, date := iso, start_time := s,
                   end_time := e, is_booked := false, booked_by := none }])
        (nextId + 1)

/-- Survivor test of the per-day DELETE
`DELETE FROM doctor_availability WHERE doctor_id = ? AND date = ? AND
is_booked = 0`: a row is kept unless it is this doctor's, on this date, and
unbooked. -/
def keepRow (docId iso : Nat) (s : Slot) : Bool :=
  !(decide (s.doctor_id = docId) && decide (s.date = iso) && decide (s.is_booked = false))

/-- One iteration of the per-day update loop of `doctor_availability`:
delete the unbooked rows for this doctor/date, then (for an enabled day)
insert the generated slots for the window, skipping key collisions. -/
def processDay (docId len : Nat) (acc : List Slot × Nat) (day : Nat × Option (Nat × Nat)) :
    List Slot × Nat :=
  match day.2 with
  | none => (acc.1.filter (keepRow docId day.1), acc.2)
  | some w => insertGenerated docId day.1 (genSlots w.1 w.2 len) (acc.1.filter (keepRow docId day.1)) acc.2

/-- The full per-day update loop over the submitted horizon. -/
def processDays (docId len : Nat) : List (Nat × Option (Nat × Nat)) → List Slot × Nat → List Slot × Nat
  | [], acc => acc
  | d :: rest, acc => processDays docId len rest (processDay docId len acc d)

/-- Outcomes of the POST branch of `doctor_availability`: the three per-day
validation flashes, the slot-length flash, or success. -/
inductive AvailResult where
  | invalidSlotLength
  | notAligned
  | outOfBounds
  | endNotAfterStart
  | ok
deriving DecidableEq

/-- The per-day validation loop of `doctor_availability`: a disabled day is
skipped; an enabled day must have both times aligned to 5 minutes, both
within 09:00-21:00, and start strictly before end.  The first violation
aborts the request before any database write. -/
def validateDays : List (Nat × Option (HMTime × HMTime)) → Option AvailResult
  | [] => none
  | (_, none) :: rest => validateDays rest
  | (_, some (s, e)) :: rest =>
    if !(is_5min_multiple s && is_5min_multiple e) then some AvailResult.notAligned
    else if !(is_within_bounds s && is_within_bounds e) then some AvailResult.outOfBounds
    else if time_to_minutes e ≤ time_to_minutes s then some AvailResult.endNotAfterStart
    else validateDays rest

/-- Conversion of a submitted day to the minute representation the update
loop works with. -/
def dayToMinutes (d : Nat × Option (HMTime × HMTime)) : Nat × Option (Nat × Nat) :=
  (d.1, d.2.map (fun w => (time_to_minutes w.1, time_to_minutes w.2)))

/-- Disjunction of the three per-window rejection conditions of
`doctor_availability` (misalignment, out of bounds, end not after start). -/
def windowViolation (w : HMTime × HMTime) : Bool :=
  !(is_5min_multiple w.1 && is_5min_multiple w.2) ||
  !(is_within_bounds w.1 && is_within_bounds w.2) ||
  decide (time_to_minutes w.2 ≤ time_to_minutes w.1)

/-- POST branch of `doctor_availability`: validate the slot length
(`slot_length <= 0 or slot_length % 5 != 0` is rejected), validate every
enabled day, and only then run the per-day delete/insert loop and commit. -/
def doctor_availability (docId : Nat) (slotLength : Int)
    (days : List (Nat × Option (HMTime × HMTime))) (db : DB) (nextSlotId : Nat) :
    AvailResult × DB :=
  if slotLength ≤ 0 ∨ slotLength % 5 ≠ 0 then (AvailResult.invalidSlotLength, db)
  else
    match validateDays days with
    | some err => (err, db)
    | none =>
      (AvailResult.ok,
        { db with
          slots := (processDays docId slotLength.toNat (days.map dayToMinutes)
            (db.slots, nextSlotId)).1 })

/-- State for C1: the only appointment occupying the key
`(doctor 1, date 20260101, 09:00)` is Cancelled, and a Free slot sits at
that key (exactly the state produced by booking the slot and cancelling the
appointment). -/
def dbC1 : DB :=
  { appointments :=
        [{ id := 1, patient_id := 1, doctor_id := 1, date := 20260101,
           time := 540, end_time := 555, status := Status.Cancelled }],
    slots :=
        [{ id := 1, doctor_id := 1, date := 20260101, start_time := 540,
           end_time := 555, is_booked := false, booked_by := none }] }

/-- State for C2: a Cancelled appointment of patient 1 with doctor 1, and a
Free slot of the same doctor at a later time. -/
def dbC2 : DB :=
  { appointments :=
        [{ id := 1, patient_id := 1, doctor_id := 1, date := 20260101,
           time := 540, end_time := 555, status := Status.Cancelled }],
    slots :=
        [{ id := 2, doctor_id := 1, date := 20260101, start_time := 600,
           end_time := 615, is_booked := false, booked_by := none }] }

/-- State for C3: a Booked appointment whose requester is patient 1, while
the slot at its `(doctor, date, start_time)` triple is held by patient 2. -/
def dbC3 : DB :=
  { appointments :=
        [{ id := 1, patient_id := 1, doctor_id := 1, date := 20260101,
           time := 540, end_time := 555, status := Status.Booked }],
    slots :=
        [{ id := 1, doctor_id := 1, date := 20260101, start_time := 540,
           end_time := 555, is_booked := true, booked_by := some 2 }] }

/-- State for the C4 counterexample: the target slot is Free and requester 1
has no Booked appointment at its key, but patient 2's Booked appointment
already occupies `(doctor 1, 20260101, 540)`. -/
def dbC4 : DB :=
  { appointments :=
        [{ id := 1, patient_id := 2, doctor_id := 1, date := 20260101,
           time := 540, end_time := 555, status := Status.Booked }],
    slots :=
        [{ id := 1, doctor_id := 1, date := 20260101, start_time := 540,
           end_time := 555, is_booked := false, booked_by := none }] }

/-- State for the C4 witness: one Free slot, no appointments. -/
def dbC4w : DB :=
  { appointments := [],
    slots :=
        [{ id := 1, doctor_id := 1, date := 20260101, start_time := 540,
           end_time := 555, is_booked := false, booked_by := none }] }

/-- State for the C5 counterexample: patient 1's Booked appointment at 09:00,
a Cancelled appointment of patient 3 at 10:00 with the same doctor (left
behind by an earlier booking + cancellation), and a Free slot at 10:00. -/
def dbC5 : DB :=
  { appointments :=
      [{ id := 1, patient_id := 1, doctor_id := 1, date := 20260101,
         time := 540, end_time := 555, status := Status.Booked },
       { id := 2, patient_id := 3, doctor_id := 1, date := 20260101,
         time := 600, end_time := 615, status := Status.Cancelled }],
    slots :=
        [{ id := 5, doctor_id := 1, date := 20260101, start_time := 600,
           end_time := 615, is_booked := false, booked_by := none }] }

/-- State for the C5 witness: patient 1's Booked appointment at 09:00 holding
slot 1, and a Free slot 2 at 10:00 with the same doctor. -/
def dbC5w : DB :=
  { appointments :=
        [{ id := 1, patient_id := 1, doctor_id := 1, date := 20260101,
           time := 540, end_time := 555, status := Status.Booked }],
    slots :=
      [{ id := 1, doctor_id := 1, date := 20260101, start_time := 540,
         end_time := 555, is_booked := true, booked_by := some 1 },
       { id := 2, doctor_id := 1, date := 20260101, start_time := 600,
         end_time := 615, is_booked := false, booked_by := none }] }

/-- State for the C6 witness: a Booked appointment holding its slot. -/
def dbC6 : DB :=
  { appointments :=
        [{ id := 1, patient_id := 1, doctor_id := 1, date := 20260101,
           time := 540, end_time := 555, status := Status.Booked }],
    slots :=
        [{ id := 1, doctor_id := 1, date := 20260101, start_time := 540,
           end_time := 555, is_booked := true, booked_by := some 1 }] }

/-- State for the C7 witness: one Held slot at 10:00-10:15 for doctor 1. -/
def dbC7 : DB :=
  { appointments := [],
    slots :=
        [{ id := 1, doctor_id := 1, date := 20260101, start_time := 600,
           end_time := 615, is_booked := true, booked_by := some 4 }] }

/-- Submitted horizon for the C7 witness: one enabled day 10:00-11:00, whose
generated 10:00-10:15 slot collides with the Held slot of `dbC7`. -/
def daysC7 : List (Nat × Option (HMTime × HMTime)) :=
  [(20260101, some ({ hour := 10, minute := 0 }, { hour := 11, minute := 0 }))]

/-- Submitted horizon for the C9 witness: start time 09:03 is not aligned to
a 5-minute boundary. -/
def daysC9 : List (Nat × Option (HMTime × HMTime)) :=
  [(20260101, some ({ hour := 9, minute := 3 }, { hour := 10, minute := 0 }))]

/-- Empty state for the C9 witness. -/
def dbC9 : DB := { appointments := [], slots := [] }

/-- State for the C10 witness: a Booked appointment belonging to patient 1,
cancelled below by a session logged in as patient 2. -/
def dbC10 : DB :=
  { appointments :=
        [{ id := 1, patient_id := 1, doctor_id := 1, date := 20260101,
           time := 540, end_time := 555, status := Status.Booked }],
    slots :=
        [{ id := 1, doctor_id := 1, date := 20260101, start_time := 540,
           end_time := 555, is_booked := true, booked_by := some 1 }] }


/-- find? over an element-wise update that does not change the predicate's
verdict commutes with the update. -/
theorem find?_map_invar {α : Type} (g : α → α) (p : α → Bool)
    (hp : ∀ x, p (g x) = p x) (l : List α) :
    (l.map g).find? p = Option.map g (l.find? p) := by
  induction l with
  | nil => rfl
  | cons a t ih =>
    cases hpa : p a with
    | true =>
      rw [List.map_cons, List.find?_cons_of_pos _ ((hp a).trans hpa),
        List.find?_cons_of_pos _ hpa]
      rfl
    | false =>
      rw [List.map_cons, List.find?_cons_of_neg, List.find?_cons_of_neg, ih]
      · simp [hpa]
      · simp [hp a, hpa]

/-- Looking an id up after an id-preserving UPDATE of that row finds the
updated row. -/
theorem find?_map_update {l : List Appointment} {i : Nat} {a : Appointment}
    (f : Appointment → Appointment) (hf : ∀ x, (f x).id = x.id)
    (hfind : l.find? (fun x => decide (x.id = i)) = some a) :
    (l.map (fun x => if x.id = i then f x else x)).find? (fun x => decide (x.id = i)) =
      some (f a) := by
  have hp : ∀ x, (fun x => decide (x.id = i)) ((fun x => if x.id = i then f x else x) x) =
      (fun x => decide (x.id = i)) x := by
    intro x
    by_cases hx : x.id = i <;> simp [hx, hf]
  rw [find?_map_invar _ _ hp l, hfind]
  have hpa := List.find?_some hfind
  have ha : a.id = i := by simpa using hpa
  simp [ha]

/-- Evaluation of `patient_cancel_appointment` on a Booked appointment. -/
theorem cancel_run (db : DB) (appointmentId : Nat) (a : Appointment)
    (hfind : findAppt db appointmentId = some a) (hb : a.status = Status.Booked) :
    patient_cancel_appointment db appointmentId =
      (CancelResult.ok,
        { appointments := db.appointments.map (fun x =>
            if x.id = appointmentId then { x with status := Status.Cancelled } else x),
          slots := db.slots.map (fun s =>
            if slotTripleMatch s a.doctor_id a.date a.time then
              { s with is_booked := false, booked_by := none }
            else s) }) := by
  unfold patient_cancel_appointment
  rw [hfind]
  simp [hb]

/-- Evaluation of `admin_cancel_appointment` on a Booked appointment. -/
theorem admin_cancel_run (db : DB) (appointmentId : Nat) (a : Appointment)
    (hfind : findAppt db appointmentId = some a) (hb : a.status = Status.Booked) :
    admin_cancel_appointment db appointmentId =
      (CancelResult.ok,
        { appointments := db.appointments.map (fun x =>
            if x.id = appointmentId then { x with status := Status.Cancelled } else x),
          slots := db.slots.map (fun s =>
            if slotTripleMatch s a.doctor_id a.date a.time then
              { s with is_booked := false, booked_by := none }
            else s) }) := by
  unfold admin_cancel_appointment
  rw [hfind]
  simp [hb]

/-- After a successful cancel the appointment row reads back Cancelled. -/
theorem cancel_find_after (db : DB) (appointmentId : Nat) (a : Appointment)
    (hfind : findAppt db appointmentId = some a) (hb : a.status = Status.Booked) :
    findAppt (patient_cancel_appointment db appointmentId).2 appointmentId =
      some { a with status := Status.Cancelled } := by
  rw [cancel_run db appointmentId a hfind hb]
  exact find?_map_update (fun x => { x with status := Status.Cancelled }) (fun x => rfl) hfind

/-- C1: in a state where the only appointment at the key
`(doctor 1, 20260101, 09:00)` is Cancelled and the slot at that key is Free,
booking the slot does not succeed: the appointment INSERT collides with the
unconditional unique index `idx_appointments_unique` and the transaction is
rolled back, leaving the state unchanged — the spec's create contract
(`DuplicateSlot` only for a non-Cancelled occupant) would require the
booking to succeed here. -/
theorem C1_booking_blocked_by_cancelled_row :
    (∀ x ∈ dbC1.appointments,
      x.doctor_id = 1 ∧ x.date = 20260101 ∧ x.time = 540 ∧ x.status = Status.Cancelled) ∧
    findSlot dbC1 1 =
      some { id := 1, doctor_id := 1, date := 20260101, start_time := 540,
             end_time := 555, is_booked := false, booked_by := none } ∧
    patient_book_slot dbC1 2 1 = (BookResult.bookingFailed, dbC1) := by decide

/-- C2: the patient reschedule handler performs no status check: on a state
whose only appointment is Cancelled (owned by the requester) and whose only
slot is Free for the same doctor, the reschedule succeeds, moves the
appointment to the new time, resets its status to Booked, and books the new
slot — instead of failing with NotReschedulable and leaving everything
unchanged. -/
theorem C2_reschedule_resurrects_cancelled :
    (∀ x ∈ dbC2.appointments, x.status = Status.Cancelled) ∧
    (patient_request_reschedule dbC2 1 1 2).1 = RescheduleResult.ok ∧
    findAppt (patient_request_reschedule dbC2 1 1 2).2 1 =
      some { id := 1, patient_id := 1, doctor_id := 1, date := 20260101,
             time := 600, end_time := 615, status := Status.Booked } ∧
    findSlot (patient_request_reschedule dbC2 1 1 2).2 2 =
      some { id := 2, doctor_id := 1, date := 20260101, start_time := 600,
             end_time := 615, is_booked := true, booked_by := some 1 } := by decide

/-- C3 counterexample: cancelling patient 1's Booked appointment frees the
slot at its `(doctor, date, start_time)` triple even though that slot is
held by patient 2 — the release UPDATE of `patient_cancel_appointment` has
no `booked_by` condition, so a slot held by a different requester is not
left unchanged as the claim states. -/
theorem C3_cancel_frees_other_holder :
    findAppt dbC3 1 =
      some { id := 1, patient_id := 1, doctor_id := 1, date := 20260101,
             time := 540, end_time := 555, status := Status.Booked } ∧
    dbC3.slots =
      [{ id := 1, doctor_id := 1, date := 20260101, start_time := 540,
         end_time := 555, is_booked := true, booked_by := some 2 }] ∧
    (patient_cancel_appointment dbC3 1).1 = CancelResult.ok ∧
    (patient_cancel_appointment dbC3 1).2.slots =
      [{ id := 1, doctor_id := 1, date := 20260101, start_time := 540,
         end_time := 555, is_booked := false, booked_by := none }] := by decide

/-- C3 (amended): the patient and admin cancel handlers release every slot
matching the appointment's `(doctor_id, date, start_time)` unconditionally —
with no holder check, so the slot is freed whoever holds it — and leave every
slot at a different triple unchanged. -/
theorem C3_cancel_release_unconditional (db : DB) (appointmentId : Nat) (a : Appointment)
    (hfind : findAppt db appointmentId = some a) (hb : a.status = Status.Booked) :
    (∀ s ∈ db.slots, slotTripleMatch s a.doctor_id a.date a.time = true →
      { s with is_booked := false, booked_by := none } ∈
        (patient_cancel_appointment db appointmentId).2.slots) ∧
    (∀ s ∈ db.slots, slotTripleMatch s a.doctor_id a.date a.time = false →
      s ∈ (patient_cancel_appointment db appointmentId).2.slots) ∧
    (∀ s ∈ db.slots, slotTripleMatch s a.doctor_id a.date a.time = true →
      { s with is_booked := false, booked_by := none } ∈
        (admin_cancel_appointment db appointmentId).2.slots) := by
  rw [cancel_run db appointmentId a hfind hb, admin_cancel_run db appointmentId a hfind hb]
  refine ⟨?_, ?_, ?_⟩ <;> intro s hs hm
  · exact List.mem_map.mpr ⟨s, hs, by simp [hm]⟩
  · exact List.mem_map.mpr ⟨s, hs, by simp [hm]⟩
  · exact List.mem_map.mpr ⟨s, hs, by simp [hm]⟩

/-- C3 witness: on `dbC3` the slot held by patient 2 is freed by patient 1's
cancel. -/
theorem C3_cancel_release_unconditional_witness :
    ({ id := 1, doctor_id := 1, date := 20260101, start_time := 540,
       end_time := 555, is_booked := false, booked_by := none } : Slot) ∈
      (patient_cancel_appointment dbC3 1).2.slots :=
  (C3_cancel_release_unconditional dbC3 1
      { id := 1, patient_id := 1, doctor_id := 1, date := 20260101,
        time := 540, end_time := 555, status := Status.Booked }
      (by decide) rfl).1
    { id := 1, doctor_id := 1, date := 20260101, start_time := 540,
      end_time := 555, is_booked := true, booked_by := some 2 }
    (by decide) (by decide)

/-- C6: cancelling a Booked appointment succeeds, sets its status to
Cancelled and returns the matching slot to Free; a second cancel of the same
appointment fails with the not-cancellable rejection and changes nothing,
and cancel of any appointment whose status is not Booked is a rejected
no-op. -/
theorem C6_cancel_contract (db : DB) (appointmentId : Nat) (a : Appointment)
    (hfind : findAppt db appointmentId = some a) :
    (a.status = Status.Booked →
      (patient_cancel_appointment db appointmentId).1 = CancelResult.ok ∧
      findAppt (patient_cancel_appointment db appointmentId).2 appointmentId =
        some { a with status := Status.Cancelled } ∧
      (∀ s ∈ db.slots, slotTripleMatch s a.doctor_id a.date a.time = true →
        { s with is_booked := false, booked_by := none } ∈
          (patient_cancel_appointment db appointmentId).2.slots) ∧
      patient_cancel_appointment (patient_cancel_appointment db appointmentId).2 appointmentId =
        (CancelResult.notCancellable, (patient_cancel_appointment db appointmentId).2)) ∧
    (a.status ≠ Status.Booked →
      patient_cancel_appointment db appointmentId = (CancelResult.notCancellable, db)) := by
  constructor
  · intro hb
    refine ⟨?_, cancel_find_after db appointmentId a hfind hb, ?_, ?_⟩
    · rw [cancel_run db appointmentId a hfind hb]
    · intro s hs hm
      rw [cancel_run db appointmentId a hfind hb]
      exact List.mem_map.mpr ⟨s, hs, by simp [hm]⟩
    · have h2 := cancel_find_after db appointmentId a hfind hb
      generalize hdb1 : (patient_cancel_appointment db appointmentId).2 = db1 at h2 ⊢
      unfold patient_cancel_appointment
      rw [h2]
      simp
  · intro hnb
    unfold patient_cancel_appointment
    rw [hfind]
    simp [hnb]

/-- C6 witness: on `dbC6` the second cancel is a rejected no-op. -/
theorem C6_cancel_contract_witness :
    patient_cancel_appointment (patient_cancel_appointment dbC6 1).2 1 =
      (CancelResult.notCancellable, (patient_cancel_appointment dbC6 1).2) :=
  ((C6_cancel_contract dbC6 1
      { id := 1, patient_id := 1, doctor_id := 1, date := 20260101,
        time := 540, end_time := 555, status := Status.Booked }
      (by decide)).1 rfl).2.2.2

/-- C10: the patient-facing cancel route checks no ownership: for any
session patient — here one different from the appointment's requester — a
Booked appointment is cancelled and its slot released, and the outcome does
not depend on who is logged in. -/
theorem C10_patient_cancel_no_ownership (sess : Nat) (db : DB) (appointmentId : Nat)
    (a : Appointment) (hfind : findAppt db appointmentId = some a)
    (hb : a.status = Status.Booked) (hdiff : a.patient_id ≠ sess) :
    (patient_cancel_endpoint sess db appointmentId).1 = CancelResult.ok ∧
    findAppt (patient_cancel_endpoint sess db appointmentId).2 appointmentId =
      some { a with status := Status.Cancelled } ∧
    (∀ s ∈ db.slots, slotTripleMatch s a.doctor_id a.date a.time = true →
      { s with is_booked := false, booked_by := none } ∈
        (patient_cancel_endpoint sess db appointmentId).2.slots) ∧
    (∀ sess2 : Nat, patient_cancel_endpoint sess2 db appointmentId =
      patient_cancel_endpoint sess db appointmentId) := by
  unfold patient_cancel_endpoint
  refine ⟨?_, cancel_find_after db appointmentId a hfind hb, ?_, fun sess2 => rfl⟩
  · rw [cancel_run db appointmentId a hfind hb]
  · intro s hs hm
    rw [cancel_run db appointmentId a hfind hb]
    exact List.mem_map.mpr ⟨s, hs, by simp [hm]⟩

/-- C10 witness: a session logged in as patient 2 cancels patient 1's Booked
appointment. -/
theorem C10_patient_cancel_no_ownership_witness :
    (patient_cancel_endpoint 2 dbC10 1).1 = CancelResult.ok :=
  (C10_patient_cancel_no_ownership 2 dbC10 1
      { id := 1, patient_id := 1, doctor_id := 1, date := 20260101,
        time := 540, end_time := 555, status := Status.Booked }
      (by decide) rfl (by decide)).1


/-- C4 counterexample: the target slot is Free and requester 1 holds no
Booked appointment at its key, yet `patient_book_slot` does not create the
appointment: patient 2's Booked row at `(doctor 1, 20260101, 09:00)` makes
the INSERT collide with `idx_appointments_unique` and the whole transaction
rolls back. -/
theorem C4_free_slot_booking_fails_on_foreign_row :
    findSlot dbC4 1 =
      some { id := 1, doctor_id := 1, date := 20260101, start_time := 540,
             end_time := 555, is_booked := false, booked_by := none } ∧
    duplicate_booking_exists dbC4.appointments 1 1 20260101 540 = false ∧
    patient_book_slot dbC4 1 1 = (BookResult.bookingFailed, dbC4) := by decide

/-- C4 (amended): the book contract of `patient_book_slot`: a non-Free slot
fails with the slot-unavailable signal and leaves the state unchanged; a
Free slot with an existing Booked appointment of the same requester at the
same doctor/date/time fails with the duplicate-booking signal, state
unchanged; a Free slot whose `(doctor_id, date, time)` key is occupied by
any other appointment row fails with the generic booking-failed rollback,
state unchanged; otherwise the Booked appointment is created at the slot's
coordinates and the slot becomes held by the requester, both in the same
committed state. -/
theorem C4_book_contract (db : DB) (patientId slotId : Nat) (fresh : Slot)
    (hfind : findSlot db slotId = some fresh) :
    (fresh.is_booked = true →
      patient_book_slot db patientId slotId = (BookResult.slotUnavailable, db)) ∧
    (fresh.is_booked = false →
      duplicate_booking_exists db.appointments patientId fresh.doctor_id fresh.date
        fresh.start_time = true →
      patient_book_slot db patientId slotId = (BookResult.duplicateBooking, db)) ∧
    (fresh.is_booked = false →
      duplicate_booking_exists db.appointments patientId fresh.doctor_id fresh.date
        fresh.start_time = false →
      apptKeyClash db.appointments fresh.doctor_id fresh.date fresh.start_time = true →
      patient_book_slot db patientId slotId = (BookResult.bookingFailed, db)) ∧
    (fresh.is_booked = false →
      duplicate_booking_exists db.appointments patientId fresh.doctor_id fresh.date
        fresh.start_time = false →
      apptKeyClash db.appointments fresh.doctor_id fresh.date fresh.start_time = false →
      (patient_book_slot db patientId slotId).1 = BookResult.ok (nextApptId db) ∧
      (patient_book_slot db patientId slotId).2.appointments =
        db.appointments ++
          [{ id := nextApptId db, patient_id := patientId, doctor_id := fresh.doctor_id,
             date := fresh.date, time := fresh.start_time, end_time := fresh.end_time,
             status := Status.Booked }] ∧
      (∀ s ∈ db.slots, s.id = slotId →
        { s with is_booked := true, booked_by := some patientId } ∈
          (patient_book_slot db patientId slotId).2.slots) ∧
      (∀ s ∈ db.slots, s.id ≠ slotId →
        s ∈ (patient_book_slot db patientId slotId).2.slots)) := by
  refine ⟨?_, ?_, ?_, ?_⟩
  · intro h1
    unfold patient_book_slot
    rw [hfind]
    simp [h1]
  · intro h1 h2
    unfold patient_book_slot
    rw [hfind]
    simp [h1, h2]
  · intro h1 h2 h3
    unfold patient_book_slot
    rw [hfind]
    simp [h1, h2, h3]
  · intro h1 h2 h3
    have hrun : patient_book_slot db patientId slotId =
        (BookResult.ok (nextApptId db),
          { appointments := db.appointments ++
              [{ id := nextApptId db, patient_id := patientId, doctor_id := fresh.doctor_id,
                 date := fresh.date, time := fresh.start_time, end_time := fresh.end_time,
                 status := Status.Booked }],
            slots := db.slots.map (fun s =>
              if s.id = slotId then { s with is_booked := true, booked_by := some patientId }
              else s) }) := by
      unfold patient_book_slot
      rw [hfind]
      simp [h1, h2, h3]
    refine ⟨?_, ?_, ?_, ?_⟩
    · rw [hrun]
    · rw [hrun]
    · intro s hs hsid
      rw [hrun]
      exact List.mem_map.mpr ⟨s, hs, by simp [hsid]⟩
    · intro s hs hsid
      rw [hrun]
      exact List.mem_map.mpr ⟨s, hs, by simp [hsid]⟩

/-- C4 witness: booking the Free slot of `dbC4w` (no appointments at all)
succeeds with the fresh appointment id. -/
theorem C4_book_contract_witness :
    (patient_book_slot dbC4w 1 1).1 = BookResult.ok (nextApptId dbC4w) :=
  ((C4_book_contract dbC4w 1 1
      { id := 1, doctor_id := 1, date := 20260101, start_time := 540,
        end_time := 555, is_booked := false, booked_by := none }
      (by decide)).2.2.2 rfl (by decide) (by decide)).1

/-- Composite effect of the two slot UPDATEs of the reschedule handler on the
requested row: whatever the first (release) UPDATE did to it, the second
books it for the patient. -/
theorem bookNew_free_eq (patientId rid docId dt tm : Nat) (s : Slot) (hsid : s.id = rid) :
    bookNewSlot patientId rid (freeOldSlot patientId docId dt tm s) =
      { s with is_booked := true, booked_by := some patientId } := by
  unfold freeOldSlot bookNewSlot
  by_cases hc : (slotTripleMatch s docId dt tm && decide (s.booked_by = some patientId)) = true
  · simp [hc, hsid]
  · simp [hc, hsid]

/-- Composite effect on an old-slot row (triple match, held by the patient,
not the requested row): it is released. -/
theorem bookNew_free_freed (patientId rid docId dt tm : Nat) (s : Slot)
    (hsid : s.id ≠ rid) (hm : slotTripleMatch s docId dt tm = true)
    (hby : s.booked_by = some patientId) :
    bookNewSlot patientId rid (freeOldSlot patientId docId dt tm s) =
      { s with is_booked := false, booked_by := none } := by
  unfold freeOldSlot bookNewSlot
  simp [hm, hby, hsid]

/-- Composite effect on any other row: unchanged. -/
theorem bookNew_free_frame (patientId rid docId dt tm : Nat) (s : Slot)
    (hsid : s.id ≠ rid)
    (h : slotTripleMatch s docId dt tm = false ∨ s.booked_by ≠ some patientId) :
    bookNewSlot patientId rid (freeOldSlot patientId docId dt tm s) = s := by
  unfold freeOldSlot bookNewSlot
  rcases h with h | h
  · simp [h, hsid]
  · simp [h, hsid]

/-- C5 counterexample: patient 1's Booked appointment, a Free same-doctor
target slot — the claim demands success — yet the reschedule fails: the
Cancelled appointment of patient 3 already occupies the target
`(doctor_id, date, time)` key, the appointment UPDATE collides with
`idx_appointments_unique`, and the transaction rolls back unchanged. -/
theorem C5_reschedule_fails_on_occupied_target_key :
    findAppt dbC5 1 =
      some { id := 1, patient_id := 1, doctor_id := 1, date := 20260101,
             time := 540, end_time := 555, status := Status.Booked } ∧
    findSlot dbC5 5 =
      some { id := 5, doctor_id := 1, date := 20260101, start_time := 600,
             end_time := 615, is_booked := false, booked_by := none } ∧
    patient_request_reschedule dbC5 1 1 5 = (RescheduleResult.rescheduleFailed, dbC5) := by
  decide

/-- C5 (amended): for a Booked appointment owned by the requester: a
non-Free target slot fails with the slot-unavailable signal; a target slot
of a different doctor fails with the provider-mismatch signal; a target
whose `(doctor_id, date, time)` key is occupied by another appointment row
fails with the generic rollback, state unchanged; otherwise the appointment
moves to the new slot's date/time/end_time with status still Booked, every
old-triple slot held by the requester (other than the target) is returned to
Free, the target slot becomes held by the requester, and every other slot is
unchanged. -/
theorem C5_reschedule_contract (db : DB) (patientId appointmentId requestedSlotId : Nat)
    (appt : Appointment) (fresh : Slot)
    (hfa : findAppt db appointmentId = some appt)
    (hown : appt.patient_id = patientId)
    (hb : appt.status = Status.Booked)
    (hfs : findSlot db requestedSlotId = some fresh) :
    (fresh.is_booked = true →
      patient_request_reschedule db patientId appointmentId requestedSlotId =
        (RescheduleResult.slotUnavailable, db)) ∧
    (fresh.is_booked = false → fresh.doctor_id ≠ appt.doctor_id →
      patient_request_reschedule db patientId appointmentId requestedSlotId =
        (RescheduleResult.providerMismatch, db)) ∧
    (fresh.is_booked = false → fresh.doctor_id = appt.doctor_id →
      reschedule_key_clash db.appointments appointmentId appt.doctor_id fresh.date
        fresh.start_time = true →
      patient_request_reschedule db patientId appointmentId requestedSlotId =
        (RescheduleResult.rescheduleFailed, db)) ∧
    (fresh.is_booked = false → fresh.doctor_id = appt.doctor_id →
      reschedule_key_clash db.appointments appointmentId appt.doctor_id fresh.date
        fresh.start_time = false →
      (patient_request_reschedule db patientId appointmentId requestedSlotId).1 =
          RescheduleResult.ok ∧
      findAppt (patient_request_reschedule db patientId appointmentId requestedSlotId).2
          appointmentId =
        some { appt with date := fresh.date, time := fresh.start_time,
                         end_time := fresh.end_time, status := Status.Booked } ∧
      (∀ s ∈ db.slots, s.id = requestedSlotId →
        { s with is_booked := true, booked_by := some patientId } ∈
          (patient_request_reschedule db patientId appointmentId requestedSlotId).2.slots) ∧
      (∀ s ∈ db.slots, s.id ≠ requestedSlotId →
        slotTripleMatch s appt.doctor_id appt.date appt.time = true →
        s.booked_by = some patientId →
        { s with is_booked := false, booked_by := none } ∈
          (patient_request_reschedule db patientId appointmentId requestedSlotId).2.slots) ∧
      (∀ s ∈ db.slots, s.id ≠ requestedSlotId →
        (slotTripleMatch s appt.doctor_id appt.date appt.time = false ∨
          s.booked_by ≠ some patientId) →
        s ∈ (patient_request_reschedule db patientId appointmentId requestedSlotId).2.slots)) := by
  refine ⟨?_, ?_, ?_, ?_⟩
  · intro h1
    unfold patient_request_reschedule
    rw [hfa]
    simp [hown, hfs, h1]
  · intro h1 h2
    unfold patient_request_reschedule
    rw [hfa]
    simp [hown, hfs, h1, h2]
  · intro h1 h2 h3
    unfold patient_request_reschedule
    rw [hfa]
    simp [hown, hfs, h1, h2, h3]
  · intro h1 h2 h3
    have hrun : patient_request_reschedule db patientId appointmentId requestedSlotId =
        (RescheduleResult.ok,
          { appointments := db.appointments.map (fun x =>
              if x.id = appointmentId then
                { x with date := fresh.date, time := fresh.start_time,
                         end_time := fresh.end_time, status := Status.Booked }
              else x),
            slots := (db.slots.map
                (freeOldSlot patientId appt.doctor_id appt.date appt.time)).map
              (bookNewSlot patientId requestedSlotId) }) := by
      unfold patient_request_reschedule
      rw [hfa]
      simp [hown, hfs, h1, h2, h3]
    refine ⟨?_, ?_, ?_, ?_, ?_⟩
    · rw [hrun]
    · rw [hrun]
      exact find?_map_update
        (fun x => { x with date := fresh.date, time := fresh.start_time,
                           end_time := fresh.end_time, status := Status.Booked })
        (fun x => rfl) hfa
    · intro s hs hsid
      rw [hrun]
      exact List.mem_map.mpr
        ⟨freeOldSlot patientId appt.doctor_id appt.date appt.time s,
          List.mem_map_of_mem _ hs, bookNew_free_eq _ _ _ _ _ s hsid⟩
    · intro s hs hsid hm hby
      rw [hrun]
      exact List.mem_map.mpr
        ⟨freeOldSlot patientId appt.doctor_id appt.date appt.time s,
          List.mem_map_of_mem _ hs, bookNew_free_freed _ _ _ _ _ s hsid hm hby⟩
    · intro s hs hsid hother
      rw [hrun]
      exact List.mem_map.mpr
        ⟨freeOldSlot patientId appt.doctor_id appt.date appt.time s,
          List.mem_map_of_mem _ hs, bookNew_free_frame _ _ _ _ _ s hsid hother⟩

/-- C5 witness: on `dbC5w` the reschedule moves the appointment to the
10:00 slot. -/
theorem C5_reschedule_contract_witness :
    findAppt (patient_request_reschedule dbC5w 1 1 2).2 1 =
      some { id := 1, patient_id := 1, doctor_id := 1, date := 20260101,
             time := 600, end_time := 615, status := Status.Booked } :=
  ((C5_reschedule_contract dbC5w 1 1 2
      { id := 1, patient_id := 1, doctor_id := 1, date := 20260101,
        time := 540, end_time := 555, status := Status.Booked }
      { id := 2, doctor_id := 1, date := 20260101, start_time := 600,
        end_time := 615, is_booked := false, booked_by := none }
      (by decide) rfl rfl (by decide)).2.2.2 rfl rfl (by decide)).2.1

/-- The generation loop emits nothing once a whole slot no longer fits. -/
theorem genSlotsAux_nil (len fuel c e : Nat) (h : e < c + len) :
    genSlotsAux len fuel c e = [] := by
  cases fuel with
  | zero => rfl
  | succ f =>
    simp only [genSlotsAux]
    rw [if_neg (by omega : ¬(c + len ≤ e))]

/-- Closed form of the generation loop, under sufficient fuel. -/
theorem genSlotsAux_eq (len : Nat) (hlen : 0 < len) :
    ∀ fuel c e, e < c + fuel →
      genSlotsAux len fuel c e =
        (List.range ((e - c) / len)).map (fun i => (c + i * len, c + i * len + len)) := by
  intro fuel
  induction fuel with
  | zero =>
    intro c e h
    have h0 : e - c = 0 := by omega
    simp [genSlotsAux, h0]
  | succ f ih =>
    intro c e h
    by_cases hc : c + len ≤ e
    · have h1 : len ≤ e - c := by omega
      have hq : (e - c) / len = (e - (c + len)) / len + 1 := by
        rw [Nat.div_eq_sub_div hlen h1, Nat.sub_sub]
      simp only [genSlotsAux, if_pos hc]
      rw [ih (c + len) e (by omega), hq, List.range_succ_eq_map, List.map_cons, List.map_map]
      have hfun : ((fun i => (c + i * len, c + i * len + len)) ∘ Nat.succ) =
          (fun i => (c + len + i * len, c + len + i * len + len)) := by
        funext i
        have e1 : c + (i + 1) * len = c + len + i * len := by ring
        simp [Function.comp, Nat.succ_eq_add_one, e1]
      rw [hfun]
      congr 1
      simp
    · have h2 : e - c < len := by omega
      simp only [genSlotsAux, if_neg hc]
      rw [Nat.div_eq_of_lt h2]
      simp

/-- Closed form of `genSlots` for a positive slot length. -/
theorem genSlots_eq (c e len : Nat) (hlen : 0 < len) :
    genSlots c e len =
      (List.range ((e - c) / len)).map (fun i => (c + i * len, c + i * len + len)) := by
  unfold genSlots
  exact genSlotsAux_eq len hlen _ c e (by omega)

/-- Number of generated slots. -/
theorem genSlots_length (c e len : Nat) (hlen : 0 < len) :
    (genSlots c e len).length = (e - c) / len := by
  rw [genSlots_eq c e len hlen]
  simp

/-- C8: for a positive slot length, the generated list is the back-to-back
sequence starting at `s`: the i-th slot is exactly
`(s + i*len, s + i*len + len)`; every slot is exactly `len` long and ends by
`e`; consecutive slots share their boundary; one more slot would overrun `e`
(maximality); and no slot is produced when `s + len > e`. -/
theorem C8_genSlots_shape (s e len : Nat) (hlen : 0 < len) :
    (∀ i (h : i < (genSlots s e len).length),
      (genSlots s e len).get ⟨i, h⟩ = (s + i * len, s + i * len + len)) ∧
    (∀ p ∈ genSlots s e len, p.2 = p.1 + len ∧ p.2 ≤ e) ∧
    (∀ i (h1 : i < (genSlots s e len).length) (h2 : i + 1 < (genSlots s e len).length),
      ((genSlots s e len).get ⟨i, h1⟩).2 = ((genSlots s e len).get ⟨i + 1, h2⟩).1) ∧
    e < s + (genSlots s e len).length * len + len ∧
    (e < s + len → genSlots s e len = []) := by
  have hg := genSlots_eq s e len hlen
  have hL := genSlots_length s e len hlen
  have hget : ∀ i (h : i < (genSlots s e len).length),
      (genSlots s e len).get ⟨i, h⟩ = (s + i * len, s + i * len + len) := by
    intro i h
    rw [List.get_of_eq hg]
    simp
  refine ⟨hget, ?_, ?_, ?_, ?_⟩
  · intro p hp
    rw [hg] at hp
    obtain ⟨i, hi, rfl⟩ := List.mem_map.mp hp
    have hn : i < (e - s) / len := List.mem_range.mp hi
    refine ⟨rfl, ?_⟩
    have hpos : 0 < (e - s) / len := Nat.lt_of_le_of_lt (Nat.zero_le i) hn
    have h5 : len ≤ e - s := by
      by_contra hlt
      push_neg at hlt
      rw [Nat.div_eq_of_lt hlt] at hpos
      exact absurd hpos (lt_irrefl 0)
    have h1 : (i + 1) * len ≤ (e - s) / len * len :=
      Nat.mul_le_mul_right len (Nat.succ_le_of_lt hn)
    have h2 : (e - s) / len * len ≤ e - s := Nat.div_mul_le_self _ _
    have h3 : (i + 1) * len = i * len + len := by ring
    show s + i * len + len ≤ e
    omega
  · intro i h1 h2
    rw [hget i h1, hget (i + 1) h2]
    show s + i * len + len = s + (i + 1) * len
    ring
  · rw [hL]
    rcases Nat.le_total s e with hse | hse
    · have hdm := Nat.div_add_mod (e - s) len
      have hm : (e - s) % len < len := Nat.mod_lt _ hlen
      rw [Nat.mul_comm] at hdm
      omega
    · have h0 : e - s = 0 := by omega
      rw [h0, Nat.zero_div]
      omega
  · intro hlt
    unfold genSlots
    exact genSlotsAux_nil len _ s e hlt

/-- C8 witness: generating 15-minute slots over 09:00-10:30 (540-630). -/
theorem C8_genSlots_shape_witness :
    0 < 15 ∧ 630 < 540 + (genSlots 540 630 15).length * 15 + 15 :=
  ⟨by decide, (C8_genSlots_shape 540 630 15 (by decide)).2.2.2.1⟩

/-- A submitted horizon containing a violating enabled window never
validates. -/
theorem validateDays_some :
    ∀ days : List (Nat × Option (HMTime × HMTime)),
      (∃ d ∈ days, Option.any windowViolation d.2 = true) →
      ∃ err, validateDays days = some err ∧ err ≠ AvailResult.ok := by
  intro days
  induction days with
  | nil =>
    rintro ⟨d, hd, _⟩
    exact absurd hd (List.not_mem_nil d)
  | cons d rest ih =>
    rintro ⟨d1, hd1, hviol⟩
    obtain ⟨dt, w⟩ := d
    cases w with
    | none =>
      have hr : d1 ∈ rest := by
        rcases List.mem_cons.mp hd1 with h | h
        · subst h; simp [Option.any] at hviol
        · exact h
      obtain ⟨err, herr, hne⟩ := ih ⟨d1, hr, hviol⟩
      exact ⟨err, by simpa [validateDays] using herr, hne⟩
    | some w =>
      obtain ⟨ws, we⟩ := w
      by_cases hA : (is_5min_multiple ws && is_5min_multiple we) = true
      · by_cases hB : (is_within_bounds ws && is_within_bounds we) = true
        · by_cases hC : time_to_minutes we ≤ time_to_minutes ws
          · refine ⟨AvailResult.endNotAfterStart, ?_, by decide⟩
            simp [validateDays, hA, hB, hC]
          · have hw : windowViolation (ws, we) = false := by
              simp [windowViolation, hA, hB, hC]
            have hr : d1 ∈ rest := by
              rcases List.mem_cons.mp hd1 with h | h
              · subst h; simp [Option.any, hw] at hviol
              · exact h
            obtain ⟨err, herr, hne⟩ := ih ⟨d1, hr, hviol⟩
            refine ⟨err, ?_, hne⟩
            simpa [validateDays, hA, hB, hC] using herr
        · have hB2 : (is_within_bounds ws && is_within_bounds we) = false := by
            revert hB
            cases is_within_bounds ws && is_within_bounds we <;> simp
          refine ⟨AvailResult.outOfBounds, ?_, by decide⟩
          simp [validateDays, hA, hB2]
      · have hA2 : (is_5min_multiple ws && is_5min_multiple we) = false := by
          revert hA
          cases is_5min_multiple ws && is_5min_multiple we <;> simp
        refine ⟨AvailResult.notAligned, ?_, by decide⟩
        simp [validateDays, hA2]

/-- C9: any of the submitted-window violations — non-positive or
non-multiple-of-5 slot length, a start or end not aligned to 5 minutes, a
start or end outside 09:00-21:00 (inclusive), or start not strictly before
end — makes `doctor_availability` reject the POST with a validation failure
and write no slots. -/
theorem C9_publish_validation (docId : Nat) (slotLength : Int)
    (days : List (Nat × Option (HMTime × HMTime))) (db : DB) (nextSlotId : Nat)
    (hviol : slotLength ≤ 0 ∨ slotLength % 5 ≠ 0 ∨
      ∃ d ∈ days, Option.any windowViolation d.2 = true) :
    (doctor_availability docId slotLength days db nextSlotId).1 ≠ AvailResult.ok ∧
    (doctor_availability docId slotLength days db nextSlotId).2 = db := by
  unfold doctor_availability
  by_cases hlen : slotLength ≤ 0 ∨ slotLength % 5 ≠ 0
  · rw [if_pos hlen]
    exact ⟨by simp, rfl⟩
  · rw [if_neg hlen]
    have hex : ∃ d ∈ days, Option.any windowViolation d.2 = true := by
      rcases hviol with h | h | h
      · exact absurd (Or.inl h) hlen
      · exact absurd (Or.inr h) hlen
      · exact h
    obtain ⟨err, herr, hne⟩ := validateDays_some days hex
    rw [herr]
    exact ⟨hne, rfl⟩

/-- C9 witness: the 09:03 start of `daysC9` is rejected and nothing is
written. -/
theorem C9_publish_validation_witness :
    (doctor_availability 1 15 daysC9 dbC9 0).2 = dbC9 :=
  (C9_publish_validation 1 15 daysC9 dbC9 0 (by decide)).2

/-- The insert loop never removes a row. -/
theorem insertGenerated_sub (docId iso : Nat) :
    ∀ (gen : List (Nat × Nat)) (acc : List Slot) (n : Nat) (x : Slot),
      x ∈ acc → x ∈ (insertGenerated docId iso gen acc n).1 := by
  intro gen
  induction gen with
  | nil =>
    intro acc n x hx
    simpa [insertGenerated] using hx
  | cons p rest ih =>
    intro acc n x hx
    obtain ⟨s, e⟩ := p
    simp only [insertGenerated]
    by_cases h : (acc.any fun r => slotKeyMatch r docId iso s e) = true
    · rw [if_pos h]
      exact ih acc n x hx
    · rw [if_neg h]
      exact ih _ _ x (List.mem_append_left _ hx)

/-- Every row coming out of the insert loop was already there, or is a fresh
Free row of this doctor/date whose natural key collides with no row that was
there when the loop started. -/
theorem insertGenerated_mem (docId iso : Nat) :
    ∀ (gen : List (Nat × Nat)) (acc : List Slot) (n : Nat) (x : Slot),
      x ∈ (insertGenerated docId iso gen acc n).1 →
      x ∈ acc ∨ (x.is_booked = false ∧ x.doctor_id = docId ∧ x.date = iso ∧
        ∀ r ∈ acc, slotKeyMatch r x.doctor_id x.date x.start_time x.end_time = false) := by
  intro gen
  induction gen with
  | nil =>
    intro acc n x hx
    exact Or.inl (by simpa [insertGenerated] using hx)
  | cons p rest ih =>
    intro acc n x hx
    obtain ⟨s, e⟩ := p
    simp only [insertGenerated] at hx
    by_cases h : (acc.any fun r => slotKeyMatch r docId iso s e) = true
    · rw [if_pos h] at hx
      exact ih acc n x hx
    · rw [if_neg h] at hx
      have hfalse : ∀ r ∈ acc, slotKeyMatch r docId iso s e = false := by
        intro r hr
        cases hsk : slotKeyMatch r docId iso s e with
        | false => rfl
        | true => exact absurd (List.any_eq_true.mpr ⟨r, hr, hsk⟩) h
      rcases ih _ _ x hx with hacc | ⟨hb, hdoc, hdt, hall⟩
      · rcases List.mem_append.mp hacc with h1 | h2
        · exact Or.inl h1
        · have hx2 : x = { id := n, doctor_id := docId, date := iso, start_time := s,
                           end_time := e, is_booked := false, booked_by := none } := by
            simpa using h2
          subst hx2
          exact Or.inr ⟨rfl, rfl, rfl, fun r hr => hfalse r hr⟩
      · exact Or.inr ⟨hb, hdoc, hdt, fun r hr => hall r (List.mem_append_left _ hr)⟩

/-- One publish day never removes a booked row. -/
theorem processDay_keeps_booked (docId len : Nat) (acc : List Slot × Nat)
    (day : Nat × Option (Nat × Nat)) (x : Slot) (hx : x ∈ acc.1) (hb : x.is_booked = true) :
    x ∈ (processDay docId len acc day).1 := by
  obtain ⟨iso, w⟩ := day
  have hkeep : x ∈ acc.1.filter (keepRow docId iso) :=
    List.mem_filter.mpr ⟨hx, by simp [keepRow, hb]⟩
  cases w with
  | none => simpa [processDay] using hkeep
  | some w0 =>
    simp only [processDay]
    exact insertGenerated_sub docId iso _ _ _ x hkeep

/-- Rows coming out of one publish day: old, or fresh Free of this doctor
with no key collision against a surviving booked row. -/
theorem processDay_mem (docId len : Nat) (acc : List Slot × Nat)
    (day : Nat × Option (Nat × Nat)) (x : Slot)
    (hx : x ∈ (processDay docId len acc day).1) :
    x ∈ acc.1 ∨ (x.is_booked = false ∧ x.doctor_id = docId ∧
      ∀ r ∈ acc.1, r.is_booked = true →
        slotKeyMatch r x.doctor_id x.date x.start_time x.end_time = false) := by
  obtain ⟨iso, w⟩ := day
  cases w with
  | none =>
    simp only [processDay] at hx
    exact Or.inl (List.mem_filter.mp hx).1
  | some w0 =>
    simp only [processDay] at hx
    rcases insertGenerated_mem docId iso _ _ _ x hx with hk | ⟨hb, hdoc, _, hall⟩
    · exact Or.inl (List.mem_filter.mp hk).1
    · refine Or.inr ⟨hb, hdoc, ?_⟩
      intro r hr hrb
      exact hall r (List.mem_filter.mpr ⟨hr, by simp [keepRow, hrb]⟩)

/-- A row dropped by one publish day was a Free row of this doctor on this
date. -/
theorem processDay_dropped (docId len : Nat) (acc : List Slot × Nat)
    (day : Nat × Option (Nat × Nat)) (x : Slot) (hx : x ∈ acc.1)
    (hnx : x ∉ (processDay docId len acc day).1) :
    x.is_booked = false ∧ x.doctor_id = docId ∧ x.date = day.1 := by
  obtain ⟨iso, w⟩ := day
  have hxk : x ∉ acc.1.filter (keepRow docId iso) := by
    intro hk
    apply hnx
    cases w with
    | none => simpa [processDay] using hk
    | some w0 =>
      simp only [processDay]
      exact insertGenerated_sub docId iso _ _ _ x hk
  have hkr : keepRow docId iso x = false := by
    cases hkr0 : keepRow docId iso x with
    | false => rfl
    | true => exact absurd (List.mem_filter.mpr ⟨hx, hkr0⟩) hxk
  have h3 : (decide (x.doctor_id = docId) && decide (x.date = iso) &&
      decide (x.is_booked = false)) = true := by
    cases hX : (decide (x.doctor_id = docId) && decide (x.date = iso) &&
        decide (x.is_booked = false)) with
    | true => rfl
    | false =>
      unfold keepRow at hkr
      rw [hX] at hkr
      simp at hkr
  simp only [Bool.and_eq_true, decide_eq_true_eq] at h3
  exact ⟨h3.2, h3.1.1, h3.1.2⟩

/-- The whole publish loop never removes a booked row. -/
theorem processDays_keeps_booked (docId len : Nat) :
    ∀ (days : List (Nat × Option (Nat × Nat))) (acc : List Slot × Nat) (x : Slot),
      x ∈ acc.1 → x.is_booked = true → x ∈ (processDays docId len days acc).1 := by
  intro days
  induction days with
  | nil =>
    intro acc x hx _
    simpa [processDays] using hx
  | cons d rest ih =>
    intro acc x hx hb
    simp only [processDays]
    exact ih _ x (processDay_keeps_booked docId len acc d x hx hb) hb

/-- A row the whole publish loop dropped was a Free row of this doctor on one
of the submitted dates. -/
theorem processDays_dropped (docId len : Nat) :
    ∀ (days : List (Nat × Option (Nat × Nat))) (acc : List Slot × Nat) (x : Slot),
      x ∈ acc.1 → x ∉ (processDays docId len days acc).1 →
      x.is_booked = false ∧ x.doctor_id = docId ∧ x.date ∈ days.map Prod.fst := by
  intro days
  induction days with
  | nil =>
    intro acc x hx hnx
    exact absurd (by simpa [processDays] using hx) hnx
  | cons d rest ih =>
    intro acc x hx hnx
    simp only [processDays] at hnx
    by_cases hmid : x ∈ (processDay docId len acc d).1
    · obtain ⟨h1, h2, h3⟩ := ih _ x hmid hnx
      exact ⟨h1, h2, by simp [h3]⟩
    · obtain ⟨h1, h2, h3⟩ := processDay_dropped docId len acc d x hx hmid
      exact ⟨h1, h2, by simp [h3]⟩

/-- A row the whole publish loop created is Free, belongs to this doctor, and
key-collides with no booked row of the initial state. -/
theorem processDays_new (docId len : Nat) :
    ∀ (days : List (Nat × Option (Nat × Nat))) (acc : List Slot × Nat) (x : Slot),
      x ∈ (processDays docId len days acc).1 →
      x ∈ acc.1 ∨ (x.is_booked = false ∧ x.doctor_id = docId ∧
        ∀ r ∈ acc.1, r.is_booked = true →
          slotKeyMatch r x.doctor_id x.date x.start_time x.end_time = false) := by
  intro days
  induction days with
  | nil =>
    intro acc x hx
    exact Or.inl (by simpa [processDays] using hx)
  | cons d rest ih =>
    intro acc x hx
    simp only [processDays] at hx
    rcases ih _ x hx with hmid | ⟨hb, hdoc, hall⟩
    · rcases processDay_mem docId len acc d x hmid with h1 | ⟨hb, hdoc, hall⟩
      · exact Or.inl h1
      · exact Or.inr ⟨hb, hdoc, hall⟩
    · refine Or.inr ⟨hb, hdoc, ?_⟩
      intro r hr hrb
      exact hall r (processDay_keeps_booked docId len acc d r hr hrb) hrb

/-- C7: publish preserves every Held slot exactly (same row, holder and
times); it deletes only Free rows of this doctor on the submitted dates; a
newly inserted slot never shares its natural key with a pre-existing Held
slot (the held slot wins, the colliding insert is skipped); and when
validation passes the publish reports success regardless of collisions. -/
theorem C7_publish_preserves_held (docId : Nat) (slotLength : Int)
    (days : List (Nat × Option (HMTime × HMTime))) (db : DB) (nextSlotId : Nat) :
    (∀ s ∈ db.slots, s.is_booked = true →
      s ∈ (doctor_availability docId slotLength days db nextSlotId).2.slots) ∧
    (∀ s ∈ db.slots, s ∉ (doctor_availability docId slotLength days db nextSlotId).2.slots →
      s.is_booked = false ∧ s.doctor_id = docId ∧ s.date ∈ days.map Prod.fst) ∧
    (∀ s ∈ (doctor_availability docId slotLength days db nextSlotId).2.slots, s ∉ db.slots →
      ∀ r ∈ db.slots, r.is_booked = true →
        slotKeyMatch r s.doctor_id s.date s.start_time s.end_time = false) ∧
    (¬(slotLength ≤ 0 ∨ slotLength % 5 ≠ 0) → validateDays days = none →
      (doctor_availability docId slotLength days db nextSlotId).1 = AvailResult.ok) := by
  unfold doctor_availability
  by_cases hlen : slotLength ≤ 0 ∨ slotLength % 5 ≠ 0
  · rw [if_pos hlen]
    exact ⟨fun s hs _ => hs, fun s hs hns => absurd hs hns,
      fun s hs hns => absurd hs hns, fun hc _ => absurd hlen hc⟩
  · rw [if_neg hlen]
    cases hv : validateDays days with
    | some err =>
      refine ⟨fun s hs _ => hs, fun s hs hns => absurd hs hns,
        fun s hs hns => absurd hs hns, fun _ hnone => ?_⟩
      exact absurd hnone (by simp [hv])
    | none =>
      have hcomp : (Prod.fst ∘ dayToMinutes) =
          (Prod.fst : (Nat × Option (HMTime × HMTime)) → Nat) := by
        funext d
        rfl
      have hdates : (days.map dayToMinutes).map Prod.fst = days.map Prod.fst := by
        rw [List.map_map, hcomp]
      refine ⟨?_, ?_, ?_, fun _ _ => rfl⟩
      · intro s hs hb
        exact processDays_keeps_booked docId slotLength.toNat _ _ s hs hb
      · intro s hs hns
        have hd := processDays_dropped docId slotLength.toNat (days.map dayToMinutes)
          (db.slots, nextSlotId) s hs hns
        rwa [hdates] at hd
      · intro s hs hns
        rcases processDays_new docId slotLength.toNat (days.map dayToMinutes)
          (db.slots, nextSlotId) s hs with h1 | ⟨_, _, hall⟩
        · exact absurd h1 hns
        · exact hall

/-- C7 witness: republishing 10:00-11:00 over `dbC7` keeps the Held
10:00-10:15 slot untouched (its generated twin is skipped). -/
theorem C7_publish_preserves_held_witness :
    ({ id := 1, doctor_id := 1, date := 20260101, start_time := 600,
       end_time := 615, is_booked := true, booked_by := some 4 } : Slot) ∈
      (doctor_availability 1 15 daysC7 dbC7 100).2.slots :=
  (C7_publish_preserves_held 1 15 daysC7 dbC7 100).1
    { id := 1, doctor_id := 1, date := 20260101, start_time := 600,
      end_time := 615, is_booked := true, booked_by := some 4 }
    (by decide) rfl

end Hospital
